import Mathlib

/-!
Verification development for the InkyCloud-F1 rendering engine
(`app/services/renderer.py`).

The renderer is shallowly embedded as follows.

* Drawing calls on the shared PIL canvas (`draw.text`, `draw.line`,
  `draw.rectangle`, `draw.rounded_rectangle`, `image.paste`) become entries in
  an explicit operation log (`DrawOp`); each section renderer is a pure
  function returning the list of operations it performs, in order.
* PIL text metrics (`draw.textbbox((0, 0), text, font)`) are an explicit
  parameter of the `Renderer` structure (`metrics : FontKey → String → Bbox`):
  the renderer only ever consumes the four returned coordinates.
* Filesystem probes (track/flag/logo assets, the static circuits JSON) and the
  wall clock (`datetime.now()`) are likewise explicit parameters, so every
  renderer function is total and executable.
* Python `//` and `%` on integers are floor division and floor remainder, so
  they are translated as `Int.fdiv` / `Int.fmod`.
* The BMP encoder (`Renderer._to_bmp`, i.e. PIL's BMP save path for a mode-"1"
  image) is embedded byte for byte: 14-byte file header, 40-byte info header,
  2-entry palette, 1-bit rows padded to 4-byte boundaries, bottom-up.
-/

namespace InkyCloud

/-- Display size constants from `app/config.py` (frozen fields). -/
def DISPLAY_WIDTH : Nat := 800

/-- Display height constant from `app/config.py`. -/
def DISPLAY_HEIGHT : Nat := 480

/-- Reference text for consistent text positioning across languages
(`TEXT_BASELINE_REF` in `renderer.py`). -/
def TEXT_BASELINE_REF : String := "ÁŽÝgy"

/-- Keys of the `self.fonts` dictionary built in `Renderer.__init__`. -/
inductive FontKey where
  | header_title
  | header_subtitle
  | race_name
  | circuit_name
  | circuit_location
  | schedule_title
  | schedule_row
  | schedule_row_bold
  | results_title
  | results_year
  | results_row
  | footer
  | circuit_stats
  | circuit_stats_value
  | icon
  | icon_small
deriving DecidableEq, Repr

/-- Bounding box `(left, top, right, bottom)` as returned by
`draw.textbbox((0, 0), text, font)`. -/
structure Bbox where
  left : Int
  top : Int
  right : Int
  bottom : Int
deriving DecidableEq, Repr

/-- Text measurement oracle standing for PIL's font metrics. -/
abbrev Metrics := FontKey → String → Bbox

/-- Translation dictionary for the current language; `none` models a missing
key. -/
abbrev Translator := String → Option String

/-- Python `translator.get(key, default)`. -/
def tget (t : Translator) (key default : String) : String :=
  (t key).getD default

/-- Python `str.lower()` at the ASCII level (the renderer only lowercases
session names, map values and ISO codes). Defined over the character list so
that it computes by structural recursion. -/
def pyLower (s : String) : String :=
  ⟨s.data.map Char.toLower⟩

/-- Python `str.upper()` at the ASCII level, over the character list. -/
def pyUpper (s : String) : String :=
  ⟨s.data.map Char.toUpper⟩

/-- Python `s[:n]` (a prefix of `n` code points), over the character list. -/
def pyTake (s : String) (n : Nat) : String :=
  ⟨s.data.take n⟩

/-- The `self.layout` dictionary of fixed pixel coordinates. -/
structure Layout where
  header_height : Int
  header_split_x : Int
  header_padding_x : Int
  content_y_start : Int
  left_column_width : Int
  right_column_x : Int
  track_padding : Int
  track_map_max_height : Int
  track_title_y_offset : Int
  schedule_title_y : Int
  schedule_start_y : Int
  schedule_row_height : Int
  schedule_date_x : Int
  schedule_day_x : Int
  schedule_time_x : Int
  schedule_name_x : Int
  results_y_start : Int
  results_col1_x : Int
  results_col2_x : Int
  results_time_offset : Int
  results_row_height : Int
  results_title_y_offset : Int
  results_data_y_offset : Int
  circuit_stats_y : Int
  circuit_stats_row_height : Int
  padding : Int
  separator_width : Int

/-- The layout constants exactly as assigned in `Renderer.__init__`. -/
def layout : Layout where
  header_height := 90
  header_split_x := 230
  header_padding_x := 15
  content_y_start := 105
  left_column_width := 500
  right_column_x := 510
  track_padding := 10
  track_map_max_height := 200
  track_title_y_offset := 5
  schedule_title_y := 100
  schedule_start_y := 140
  schedule_row_height := 28
  schedule_date_x := 510
  schedule_day_x := 575
  schedule_time_x := 620
  schedule_name_x := 680
  results_y_start := 385
  results_col1_x := 109
  results_col2_x := 455
  results_time_offset := 260
  results_row_height := 20
  results_title_y_offset := 5
  results_data_y_offset := 4
  circuit_stats_y := 320
  circuit_stats_row_height := 18
  padding := 15
  separator_width := 2

/-- The `COUNTRY_MAP` table from `renderer.py` (country name to ISO code). -/
def COUNTRY_MAP : List (String × String) :=
  [("Australia", "au"), ("Austria", "at"), ("Azerbaijan", "az"),
   ("Bahrain", "bh"), ("Belgium", "be"), ("Brazil", "br"), ("Canada", "ca"),
   ("China", "cn"), ("France", "fr"), ("Germany", "de"), ("Hungary", "hu"),
   ("Italy", "it"), ("Japan", "jp"), ("Mexico", "mx"), ("Monaco", "mc"),
   ("Netherlands", "nl"), ("Portugal", "pt"), ("Qatar", "qa"),
   ("Russia", "ru"), ("Saudi Arabia", "sa"), ("Singapore", "sg"),
   ("Spain", "es"), ("Turkey", "tr"), ("UAE", "ae"),
   ("United Arab Emirates", "ae"), ("UK", "gb"), ("United Kingdom", "gb"),
   ("USA", "us"), ("United States", "us")]

/-- The `CIRCUIT_ID_MAP` table from `renderer.py`. -/
def CIRCUIT_ID_MAP : List (String × String) := [("vegas", "las_vegas")]

/-- One entry of the `race_data["schedule"]` list. The timestamp is the
absolute race time in epoch seconds (`none` models a missing or null
`datetime` value; the `datetime`-vs-ISO-string distinction of the source is
immaterial once parsed). -/
structure ScheduleEvent where
  name : Option String
  datetime : Option Int
  display_time : Option String
deriving DecidableEq, Repr

/-- The `race_data["circuit"]` sub-dictionary (keys used by the renderer). -/
structure CircuitDict where
  circuitId : Option String
  name : Option String
  location : Option String
  country : Option String
deriving DecidableEq, Repr

/-- The `race_data` dictionary (keys used by the renderer; `none` models a
missing key, matching `dict.get` defaults). -/
structure RaceData where
  race_name : Option String
  season : Option String
  schedule : List ScheduleEvent
  circuit : CircuitDict
deriving DecidableEq, Repr

/-- `DriverInfo` from `app/models.py`. -/
structure DriverInfo where
  code : String
  given_name : String
  family_name : String
deriving DecidableEq, Repr

/-- The `display_name` property of `DriverInfo`. -/
def DriverInfo.display_name (d : DriverInfo) : String :=
  d.family_name

/-- `ConstructorInfo` from `app/models.py`. -/
structure ConstructorInfo where
  name : String
deriving DecidableEq, Repr

/-- `RaceResultEntry` from `app/models.py`. -/
structure RaceResultEntry where
  position : Int
  driver : DriverInfo
  constructor : ConstructorInfo
  time : Option String
deriving DecidableEq, Repr

/-- `QualifyingResultEntry` from `app/models.py`. -/
structure QualifyingResultEntry where
  position : Int
  driver : DriverInfo
  constructor : ConstructorInfo
  q3_time : Option String
deriving DecidableEq, Repr

/-- `HistoricalData` from `app/models.py`. -/
structure HistoricalData where
  season : Option Int
  is_new_track : Bool
  race_results : List RaceResultEntry
  qualifying_results : List QualifyingResultEntry
deriving DecidableEq, Repr

/-- Duck-typed view of a result entry as accessed by
`Renderer._draw_results_column` (`position`, `driver.display_name`,
`constructor.name`, and `q3_time` or `time` depending on the column). -/
structure ResultEntryView where
  position : Int
  driver : DriverInfo
  constructor : ConstructorInfo
  q3_time : Option String
  time : Option String
deriving DecidableEq, Repr

/-- A qualifying entry seen through the column renderer's accesses. -/
def QualifyingResultEntry.toView (e : QualifyingResultEntry) : ResultEntryView :=
  ⟨e.position, e.driver, e.constructor, e.q3_time, none⟩

/-- A race entry seen through the column renderer's accesses. -/
def RaceResultEntry.toView (e : RaceResultEntry) : ResultEntryView :=
  ⟨e.position, e.driver, e.constructor, none, e.time⟩

/-- The fields of one `circuits_data.json` record used by
`Renderer._draw_circuit_stats`; every value is rendered through an f-string,
so it is kept as a string here. -/
structure CircuitStatic where
  circuit_length : Option String
  number_of_laps : Option String
  race_distance : Option String
  fastest_lap_time : Option String
  fastest_lap_driver : Option String
  fastest_lap_year : Option String
  first_grand_prix : Option String
deriving DecidableEq, Repr

/-- One drawing call performed on the shared canvas. -/
inductive DrawOp where
  | line (x0 y0 x1 y1 : Int) (fill : Nat) (width : Nat)
  | rect (x0 y0 x1 y1 : Int) (fill : Option Nat) (outline : Option Nat) (width : Nat)
  | roundedRect (x0 y0 x1 y1 : Int) (radius : Nat) (outline : Nat) (width : Nat)
  | text (x y : Int) (s : String) (fill : Nat) (font : FontKey)
  | paste (asset : String) (x y : Int)
deriving DecidableEq, Repr

/-- The renderer together with its external collaborators: translation table,
font metrics, asset probes, static circuit data and the rasterizer.  All of
these are read-only inputs of a render call in the source. -/
structure Renderer where
  translator : Translator
  metrics : Metrics
  /-- `dt.strftime("%d.%m.")` for a timestamp. -/
  strfDate : Int → String
  /-- `dt.strftime("%a")` for a timestamp. -/
  strfDayAbbrev : Int → String
  /-- `dt.strftime("%H:%M")` for a timestamp. -/
  strfTime : Int → String
  /-- The F1 logo after `thumbnail`/threshold, `none` when the asset is
  missing or unreadable (`_draw_f1_logo`). -/
  logoScaled : Option (Int × Int)
  /-- Whether `_load_track_image` finds any usable track asset. -/
  loadTrackImage : RaceData → Bool
  /-- Dimensions of the preprocessed flag bitmap for an ISO code, `none` when
  the file does not exist or cannot be opened. -/
  flagLoad : String → Option (Int × Int)
  /-- The `CIRCUITS_DATA` table loaded from `circuits_data.json`; `none`
  models both a missing key and an empty record (falsy in the source). -/
  circuitsData : String → Option CircuitStatic
  /-- PIL's rasterization of an operation log into final pixel values
  (true = white). Glyph rasterization itself is outside the model. -/
  rasterize : List DrawOp → Nat → Nat → Bool

/-! ### Text-fit utility (`Renderer._fit_text`) -/

/-- The composite string `f"{pos}. {driver} ({team})"` built by `_fit_text`. -/
def mkFitText (pos : Int) (driver team : String) : String :=
  s!"{pos}. {driver} ({team})"

/-- One of the two `for i in range(len(s), 2, -1)` truncation loops of
`_fit_text`: try the candidate built from the current length `n`, return it if
it fits, otherwise retry with `n - 1`; give up below 3 (matching the
exclusive lower bound 2 of the Python `range`). -/
def truncLoop (w : String → Int) (maxW : Int) (cand : Nat → String) : Nat → Option String
  | 0 => none
  | 1 => none
  | 2 => none
  | n + 3 =>
    let t := cand (n + 3)
    if w t ≤ maxW then some t else truncLoop w maxW cand (n + 2)

/-- `Renderer._fit_text`: fit the composite string into `maxW` by truncating
the team name first, then the driver name, with a fixed last-resort form.
`w` is the measurement closure `get_width` (the right edge of
`draw.textbbox`). -/
def fitText (w : String → Int) (maxW : Int) (pos : Int) (driver team : String) : String :=
  let full := mkFitText pos driver team
  if w full ≤ maxW then full
  else
    match truncLoop w maxW (fun i => mkFitText pos driver (pyTake team i ++ "..")) team.length with
    | some t => t
    | none =>
      let short_team := pyTake team 3 ++ ".."
      match truncLoop w maxW (fun i => mkFitText pos (pyTake driver i ++ ".") short_team) driver.length with
      | some t => t
      | none => mkFitText pos (pyTake driver 5 ++ "..") (pyTake team 3 ++ "..")

/-- Modelled from the spec (§4.2): the staged truncation policy stated
declaratively, used only to compare against `fitText`. Stage candidates are
listed from full length down to 3 characters and the first fitting one is
returned; the fixed-minimal fallback is returned unconditionally at the
end. -/
def fitTextSpec (w : String → Int) (maxW : Int) (pos : Int) (driver team : String) : String :=
  let full := mkFitText pos driver team
  if w full ≤ maxW then full
  else
    let teamForms := ((List.range' 3 (team.length - 2)).reverse).map
      (fun i => mkFitText pos driver (pyTake team i ++ ".."))
    match teamForms.find? (fun t => decide (w t ≤ maxW)) with
    | some t => t
    | none =>
      let short_team := pyTake team 3 ++ ".."
      let driverForms := ((List.range' 3 (driver.length - 2)).reverse).map
        (fun i => mkFitText pos (pyTake driver i ++ ".") short_team)
      match driverForms.find? (fun t => decide (w t ≤ maxW)) with
      | some t => t
      | none => mkFitText pos (pyTake driver 5 ++ "..") (pyTake team 3 ++ "..")

/-! ### Schedule section (`_draw_schedule_section`, `_draw_schedule_row`,
`_draw_countdown_box`) -/

/-- `Renderer._draw_schedule_row`: four text columns, the session name bold
and translated through the `session_*` keys. -/
def Renderer.drawScheduleRow (r : Renderer) (y : Int) (event : ScheduleEvent) : List DrawOp :=
  let name := event.name.getD ""
  let parts : String × String × String :=
    match event.datetime with
    | some dt =>
      let day_abbrev := r.strfDayAbbrev dt
      (r.strfDate dt, tget r.translator ("day_" ++ pyLower day_abbrev) day_abbrev,
        r.strfTime dt)
    | none => ("", "", event.display_time.getD "")
  let translated_name := tget r.translator ("session_" ++ pyLower name) name
  [DrawOp.text layout.schedule_date_x y parts.1 0 FontKey.schedule_row,
   DrawOp.text layout.schedule_day_x y parts.2.1 0 FontKey.schedule_row,
   DrawOp.text layout.schedule_time_x y parts.2.2 0 FontKey.schedule_row,
   DrawOp.text layout.schedule_name_x y translated_name 0 FontKey.schedule_row_bold]

/-- The `for event in schedule` loop of `_draw_schedule_section`: draw a row,
advance by the row height, and break once the advanced position crosses the
`results_y_start - 80` guard. Returns the drawn operations and the final
`row_y`. -/
def Renderer.scheduleRowsLoop (r : Renderer) : List ScheduleEvent → Int → List DrawOp × Int
  | [], row_y => ([], row_y)
  | event :: rest, row_y =>
    let ops := r.drawScheduleRow row_y event
    let row_y2 := row_y + layout.schedule_row_height
    if row_y2 > layout.results_y_start - 80 then (ops, row_y2)
    else
      let next := r.scheduleRowsLoop rest row_y2
      (ops ++ next.1, next.2)

/-- The first-`Race`-event search loop at the top of `_draw_countdown_box`. -/
def findRaceEvent (schedule : List ScheduleEvent) : Option ScheduleEvent :=
  schedule.find? (fun e => pyLower (e.name.getD "") == "race")

/-- The race timestamp obtained by that loop (the loop breaks at the first
matching event whether or not its `datetime` is usable). -/
def findRaceDt (schedule : List ScheduleEvent) : Option Int :=
  (findRaceEvent schedule).bind (fun e => e.datetime)

/-- The countdown string
`f"{in_text} {days} {days_text} {hours} {hours_text}"` for a positive
remaining duration `delta` in seconds: Python's `timedelta` exposes
`days = delta // 86400` and `seconds // 3600 = (delta mod 86400) // 3600`. -/
def countdownText (t : Translator) (delta : Int) : String :=
  let in_text := tget t "countdown_in" "IN"
  let days_text := tget t "countdown_days" "days"
  let hours_text := tget t "countdown_hours" "hours"
  let days := delta.fdiv 86400
  let hours := (delta.fmod 86400).fdiv 3600
  s!"{in_text} {days} {days_text} {hours} {hours_text}"

/-- `Renderer._draw_countdown_box`. `now` is the current wall-clock time in
epoch seconds (`datetime.now(...)`). Returns the operations and the bottom Y
position (`schedule_bottom` unchanged when the box is omitted). -/
def Renderer.drawCountdownBox (r : Renderer) (race_data : RaceData) (now : Int)
    (schedule_bottom : Int) : List DrawOp × Int :=
  match findRaceDt race_data.schedule with
  | none => ([], schedule_bottom)
  | some race_dt =>
    let delta := race_dt - now
    if delta ≤ 0 then ([], schedule_bottom)
    else
      let countdown_str := countdownText r.translator delta
      let ref_bbox := r.metrics FontKey.schedule_row_bold TEXT_BASELINE_REF
      let text_height := ref_bbox.bottom - ref_bbox.top
      let padding_y : Int := 6
      let box_height := text_height + 2 * padding_y
      let x_left := layout.right_column_x
      let x_right := (DISPLAY_WIDTH : Int) - 5
      let stats_row_height := layout.circuit_stats_row_height
      let stats_top_y := layout.results_y_start - 3 - 3 * stats_row_height
      let available_height := stats_top_y - schedule_bottom
      let y_top := schedule_bottom + (available_height - box_height).fdiv 2
      let y_bottom := y_top + box_height
      let text_bbox := r.metrics FontKey.schedule_row_bold countdown_str
      let text_width := text_bbox.right - text_bbox.left
      let text_x := x_left + (x_right - x_left - text_width).fdiv 2
      let text_y := y_top + padding_y - ref_bbox.top
      ([DrawOp.rect x_left y_top x_right y_bottom (some 0) (some 0) 1,
        DrawOp.text text_x text_y countdown_str 1 FontKey.schedule_row_bold],
       y_bottom)

/-- `Renderer._draw_schedule_section`: title, rows, then the countdown box;
returns the countdown box's bottom Y. -/
def Renderer.drawScheduleSection (r : Renderer) (race_data : RaceData) (now : Int) :
    List DrawOp × Int :=
  let schedule_title := tget r.translator "weekend_schedule" "WEEKEND SCHEDULE"
  let titleOp := DrawOp.text layout.right_column_x layout.schedule_title_y schedule_title 0
    FontKey.schedule_title
  let rows := r.scheduleRowsLoop race_data.schedule layout.schedule_start_y
  let countdown := r.drawCountdownBox race_data now (rows.2 + 5)
  (titleOp :: rows.1 ++ countdown.1, countdown.2)

/-! ### Historical results section (`_draw_results_section` and helpers) -/

/-- The ISO flag-code computation inside `_draw_results_header`:
`COUNTRY_MAP.get(country_name, "").lower()`, a (dead) special-case chain, and
the crude first-two-characters fallback. -/
def isoCode (country_name : String) : String :=
  let iso_code := pyLower ((COUNTRY_MAP.lookup country_name).getD "")
  if iso_code = "" then
    if country_name = "UAE" then "ae"
    else if country_name = "UK" then "gb"
    else if country_name = "USA" then "us"
    else pyLower (pyTake country_name 2)
  else iso_code

/-- `Renderer._draw_new_track_message`: one centered translated message below
the separator. -/
def Renderer.drawNewTrackMessage (r : Renderer) (y_start : Int) : List DrawOp :=
  let message := tget r.translator "new_track" "NEW TRACK"
  let bbox := r.metrics FontKey.schedule_title message
  let text_width := bbox.right - bbox.left
  let x := ((DISPLAY_WIDTH : Int) - text_width).fdiv 2
  let y := y_start + 30
  [DrawOp.text x y message 0 FontKey.schedule_title]

/-- `Renderer._draw_results_header`: the big season-year numeral plus the
country flag (pasted and bordered when its asset loads), vertically centered
as one block in the footer; returns the block's visual top and the drawn
operations. `int(h * ratio)` of the float flag resize is modelled by exact
integer floor division (both truncate the same positive quotient up to
floating-point noise). -/
def Renderer.drawResultsHeader (r : Renderer) (y_start : Int) (season country_name : String) :
    Int × List DrawOp :=
  let year_text := season
  let bbox := r.metrics FontKey.results_year year_text
  let text_width := bbox.right - bbox.left
  let text_h := bbox.bottom - bbox.top
  let footer_y_start := y_start
  let footer_height := (DISPLAY_HEIGHT : Int) - footer_y_start
  let iso_code := isoCode country_name
  let flag_img : Option (Int × Int) := if iso_code = "" then none else r.flagLoad iso_code
  let header_area_w := layout.results_col1_x
  -- int(header_area_w * 0.8) = 87 for header_area_w = 109
  let max_flag_width := (header_area_w * 4).fdiv 5
  let scaled : Option (Int × Int) :=
    match flag_img with
    | none => none
    | some (w, h) =>
      if w > max_flag_width then some (max_flag_width, (h * max_flag_width).fdiv w)
      else some (w, h)
  let flag_h := match scaled with | none => 0 | some (_, h) => h
  let standard_gap : Int := 3
  let total_block_h_stable := text_h + (if flag_h > 0 then standard_gap else 0) + flag_h
  let y_offset_stable := (footer_height - total_block_h_stable).fdiv 2
  let visual_top := footer_y_start + y_offset_stable
  let year_x := (header_area_w - text_width).fdiv 2
  let text_y := visual_top - bbox.top
  let yearOp := DrawOp.text year_x text_y year_text 0 FontKey.results_year
  let flagOps : List DrawOp :=
    match scaled with
    | none => []
    | some (fw, fh) =>
      let x := (header_area_w - fw).fdiv 2
      let y := text_y + bbox.bottom + 6
      [DrawOp.paste "flag" x y,
       DrawOp.rect (x - 1) (y - 1) (x + fw) (y + fh) none (some 0) 1]
  (visual_top, yearOp :: flagOps)

/-- One iteration of the `for i, entry in enumerate(results[:3])` loop of
`_draw_results_column`. -/
def Renderer.drawResultRow (r : Renderer) (x_start time_x y : Int) (is_qualifying : Bool)
    (entry : ResultEntryView) : List DrawOp :=
  let pos := entry.position
  let driver_name := entry.driver.display_name
  let team := entry.constructor.name
  let time_str := (if is_qualifying then entry.q3_time else entry.time).getD ""
  let max_width := layout.results_time_offset - 10
  let text := fitText (fun t => (r.metrics FontKey.results_row t).right) max_width pos
    driver_name team
  DrawOp.text x_start y text 0 FontKey.results_row ::
    (if time_str ≠ "" then [DrawOp.text time_x y time_str 0 FontKey.results_row] else [])

/-- The row loop of `_draw_results_column` with its running index. -/
def Renderer.resultRowsAux (r : Renderer) (x_start time_x y_rows_start : Int)
    (is_qualifying : Bool) : List ResultEntryView → Nat → List DrawOp
  | [], _ => []
  | entry :: rest, i =>
    r.drawResultRow x_start time_x (y_rows_start + (i : Int) * layout.results_row_height)
      is_qualifying entry
      ++ r.resultRowsAux x_start time_x y_rows_start is_qualifying rest (i + 1)

/-- `Renderer._draw_results_column`: the translated column title anchored to
the year numeral's visual top via the reference glyph string, then up to
three rows below it. -/
def Renderer.drawResultsColumn (r : Renderer) (x_start visual_top : Int) (title : String)
    (results : List ResultEntryView) (is_qualifying : Bool) : List DrawOp :=
  let ref_bbox := r.metrics FontKey.results_title TEXT_BASELINE_REF
  let header_y_anchor := visual_top - ref_bbox.top
  let time_x := x_start + layout.results_time_offset
  let hg_bbox := r.metrics FontKey.results_title "Hg"
  let header_visual_bottom := header_y_anchor + hg_bbox.bottom
  let row_bbox := r.metrics FontKey.results_row "1"
  let y_rows_start := header_visual_bottom + layout.results_data_y_offset - row_bbox.top
  DrawOp.text x_start header_y_anchor title 0 FontKey.results_title ::
    r.resultRowsAux x_start time_x y_rows_start is_qualifying (results.take 3) 0

/-- The `historical_data.season or ""` then `str(...)` computation feeding the
year header (`0` is falsy in Python). -/
def seasonText (season : Option Int) : String :=
  match season with
  | some n => if n = 0 then "" else toString n
  | none => ""

/-- `Renderer._draw_results_section`: separator line, then either the
new-track message or the year/flag header plus the two result columns. -/
def Renderer.drawResultsSection (r : Renderer) (race_data : RaceData)
    (historical_data : Option HistoricalData) : List DrawOp :=
  let y_start := layout.results_y_start
  let sep := DrawOp.line 0 y_start (DISPLAY_WIDTH : Int) y_start 0 2
  match historical_data with
  | none => sep :: r.drawNewTrackMessage y_start
  | some hd =>
    if hd.is_new_track then sep :: r.drawNewTrackMessage y_start
    else
      let season := seasonText hd.season
      let country := race_data.circuit.country.getD ""
      let header := r.drawResultsHeader y_start season country
      sep :: header.2
        ++ r.drawResultsColumn layout.results_col1_x header.1
            (tget r.translator "qualifying" "QUALIFYING")
            (hd.qualifying_results.map QualifyingResultEntry.toView) true
        ++ r.drawResultsColumn layout.results_col2_x header.1
            (tget r.translator "race" "RACE")
            (hd.race_results.map RaceResultEntry.toView) false

/-! ### Header, track and circuit-stats sections -/

/-- `Renderer._draw_header` and `_draw_f1_logo` (thumbnail arithmetic of the
logo is inside `logoScaled`). -/
def Renderer.drawHeader (r : Renderer) (race_data : RaceData) : List DrawOp :=
  let header_height := layout.header_height
  let split_x := layout.header_split_x
  let base :=
    [DrawOp.rect 0 0 split_x header_height (some 1) none 1,
     DrawOp.line 0 (header_height - 1) split_x (header_height - 1) 0 2,
     DrawOp.rect (split_x + 1) 0 (DISPLAY_WIDTH : Int) header_height (some 0) none 1]
  let logoOps : List DrawOp :=
    match r.logoScaled with
    | none => []
    | some (w, h) =>
      [DrawOp.paste "logo" ((split_x - w).fdiv 2) ((header_height - h).fdiv 2)]
  let race_name := race_data.race_name.getD "Grand Prix"
  let season := race_data.season.getD ""
  let line1 := s!"{season} FIA F1 World Championship"
  let line2 := pyUpper race_name
  let text_x := split_x + 15
  let total_text_height : Int := 80
  let start_y := (header_height - total_text_height).fdiv 2 - 5
  base ++ logoOps ++
    [DrawOp.text text_x start_y line1 1 FontKey.header_title,
     DrawOp.text text_x (start_y + 40) line2 1 FontKey.header_subtitle]

/-- `Renderer._draw_track_section`: the track image (or placeholder outline)
pinned at the fixed top-left, and the circuit label line whose bottom sits
exactly 3 px above the results separator. Image crop/resize arithmetic has no
observable effect on the operation log (the paste position is fixed). -/
def Renderer.drawTrackSection (r : Renderer) (race_data : RaceData) : List DrawOp :=
  let circuit := race_data.circuit
  let circuit_name := circuit.name.getD "Circuit"
  let country := pyUpper (circuit.country.getD "")
  let city := pyUpper (circuit.location.getD "")
  let results_line_y := layout.results_y_start
  let label_text :=
    if city ≠ "" then s!"{country}, {city} | {circuit_name}"
    else s!"{country} | {circuit_name}"
  let label_bbox := r.metrics FontKey.circuit_name label_text
  let label_y := results_line_y - 3 - label_bbox.bottom
  let text_visual_top := label_y + label_bbox.top
  let side_margin : Int := 3
  let track_top : Int := 92
  let track_bottom := text_visual_top - side_margin
  let available_height := track_bottom - track_top
  let available_width := layout.left_column_width - side_margin * 2
  let trackOps : List DrawOp :=
    if r.loadTrackImage race_data then [DrawOp.paste "track" side_margin track_top]
    else
      [DrawOp.roundedRect (side_margin + 20) (track_top + 20)
        (side_margin + available_width - 20) (track_top + available_height - 20) 20 0 3]
  trackOps ++ [DrawOp.text layout.padding label_y label_text 0 FontKey.circuit_name]

/-- The `stats` list built by `_draw_circuit_stats` (icon glyph, line text). -/
def circuitStatsLines (t : Translator) (cd : CircuitStatic) : List (String × String) :=
  let length := cd.circuit_length.getD ""
  let laps := cd.number_of_laps.getD ""
  let distance := cd.race_distance.getD ""
  let lap_time := cd.fastest_lap_time.getD ""
  let lap_driver := cd.fastest_lap_driver.getD ""
  let lap_year := cd.fastest_lap_year.getD ""
  let first_gp := cd.first_grand_prix.getD ""
  let lengthLines :=
    if length ≠ "" then
      let line1 := length
        ++ (if laps ≠ "" then s!" | {laps} " ++ tget t "laps" "laps" else "")
        ++ (if distance ≠ "" then s!" | {distance}" else "")
      [("📏", line1)]
    else []
  let lapLines :=
    if lap_time ≠ "" then
      let last_name :=
        ((lap_driver.splitOn " ").filter (fun s => s ≠ "")).getLastD ""
      let lap_text := lap_time
        ++ (if lap_driver ≠ "" then
              s!" ({last_name}" ++ (if lap_year ≠ "" then s!", {lap_year})" else ")")
            else "")
      [("⚡", lap_text)]
    else []
  let gpLines :=
    if first_gp ≠ "" then [("🗓", tget t "first_gp" "First GP" ++ s!": {first_gp}")]
    else []
  lengthLines ++ lapLines ++ gpLines

/-- The icon/text row loop at the end of `_draw_circuit_stats`. -/
def Renderer.circuitStatsRows (r : Renderer) (block_x text_x max_icon_width : Int) :
    List (String × String) → Int → List DrawOp
  | [], _ => []
  | (icon, str) :: rest, y =>
    let icon_bbox := r.metrics FontKey.icon_small icon
    let icon_width := icon_bbox.right - icon_bbox.left
    let icon_x := block_x + (max_icon_width - icon_width)
    DrawOp.text icon_x y icon 0 FontKey.icon_small ::
      DrawOp.text text_x y str 0 FontKey.circuit_stats_value ::
        r.circuitStatsRows block_x text_x max_icon_width rest
          (y + layout.circuit_stats_row_height)

/-- `Renderer._draw_circuit_stats`: up to three icon-plus-text lines, the
block bottom anchored 3 px above the results separator and right-aligned 5 px
from the canvas edge. -/
def Renderer.drawCircuitStats (r : Renderer) (race_data : RaceData)
    (_schedule_bottom : Int) : List DrawOp :=
  let circuit_id := (race_data.circuit.circuitId).getD ""
  let mapped_id := (CIRCUIT_ID_MAP.lookup circuit_id).getD circuit_id
  match r.circuitsData mapped_id with
  | none => []
  | some cd =>
    let stats := circuitStatsLines r.translator cd
    if stats = [] then []
    else
      let row_height := layout.circuit_stats_row_height
      let results_line_y := layout.results_y_start
      let total_stats_height := (stats.length : Int) * row_height
      let y_start := results_line_y - 3 - total_stats_height
      let max_icon_width := stats.foldl
        (fun acc s =>
          max acc ((r.metrics FontKey.icon_small s.1).right -
            (r.metrics FontKey.icon_small s.1).left)) 0
      let max_text_width := stats.foldl
        (fun acc s =>
          max acc ((r.metrics FontKey.circuit_stats_value s.2).right -
            (r.metrics FontKey.circuit_stats_value s.2).left)) 0
      let icon_text_gap : Int := 4
      let total_block_width := max_icon_width + icon_text_gap + max_text_width
      let right_margin : Int := 5
      let block_x := (DISPLAY_WIDTH : Int) - right_margin - total_block_width
      let text_x := block_x + max_icon_width + icon_text_gap
      r.circuitStatsRows block_x text_x max_icon_width stats y_start

/-! ### BMP encoding (`Renderer._to_bmp`, i.e. PIL's BMP save for mode "1") -/

/-- A 1-bit canvas: `Image.new("1", (w, h), 1)` after drawing; `pix x y`
is true for a white pixel. -/
structure PImage where
  width : Nat
  height : Nat
  pix : Nat → Nat → Bool

/-- Little-endian 16-bit field of the BMP headers. -/
def o16 (n : Nat) : List Nat :=
  [n % 256, n / 256 % 256]

/-- Little-endian 32-bit field of the BMP headers. -/
def o32 (n : Nat) : List Nat :=
  [n % 256, n / 256 % 256, n / 65536 % 256, n / 16777216 % 256]

/-- Bytes per stored row: 1 bit per pixel, rounded up to a 4-byte boundary
(`((im.size[0] * bits + 7) // 8 + 3) & ~3` in PIL). -/
def bmpStride (w : Nat) : Nat :=
  ((w + 7) / 8 + 3) / 4 * 4

/-- One byte of packed row data: 8 pixels, most significant bit first, bit 1
for white; bits past the right edge are zero padding. -/
def packRowByte (img : PImage) (y b : Nat) : Nat :=
  (List.range 8).foldl
    (fun acc j =>
      let x := 8 * b + j
      acc * 2 + (if x < img.width && img.pix x y then 1 else 0)) 0

/-- The pixel data block: rows stored bottom-up, each padded to the stride. -/
def bmpData (img : PImage) : List Nat :=
  ((List.range img.height).map
    (fun i => (List.range (bmpStride img.width)).map
      (packRowByte img (img.height - 1 - i)))).flatten

/-- The 62 header bytes PIL writes for a 2-color BMP: BITMAPFILEHEADER,
BITMAPINFOHEADER (96 dpi = 3780 pixels per metre), and the black/white
palette. -/
def bmpHeader (w h : Nat) : List Nat :=
  let stride := bmpStride w
  let imageSize := stride * h
  let offset := 14 + 40 + 2 * 4
  [66, 77] ++ o32 (offset + imageSize) ++ o32 0 ++ o32 offset
    ++ o32 40 ++ o32 w ++ o32 h ++ o16 1 ++ o16 1 ++ o32 0 ++ o32 imageSize
    ++ o32 3780 ++ o32 3780 ++ o32 2 ++ o32 2
    ++ [0, 0, 0, 0, 255, 255, 255, 0]

/-- `Renderer._to_bmp`: serialize the canvas to BMP bytes. -/
def toBmp (img : PImage) : List Nat :=
  bmpHeader img.width img.height ++ bmpData img

/-- A standard BMP decoder restricted to what the claims need: checks the
`BM` signature, the declared file size, and that the pixel data for the
declared width/height/bit-depth is fully present, then reports
`(width, height, bits per pixel)`. -/
def decodeBmp (bs : List Nat) : Option (Nat × Nat × Nat) :=
  if bs.length < 54 then none
  else if bs.getD 0 0 = 66 ∧ bs.getD 1 0 = 77 then
    let declaredSize := bs.getD 2 0 + 256 * bs.getD 3 0 + 65536 * bs.getD 4 0
      + 16777216 * bs.getD 5 0
    let offset := bs.getD 10 0 + 256 * bs.getD 11 0 + 65536 * bs.getD 12 0
      + 16777216 * bs.getD 13 0
    let w := bs.getD 18 0 + 256 * bs.getD 19 0 + 65536 * bs.getD 20 0
      + 16777216 * bs.getD 21 0
    let h := bs.getD 22 0 + 256 * bs.getD 23 0 + 65536 * bs.getD 24 0
      + 16777216 * bs.getD 25 0
    let bits := bs.getD 28 0 + 256 * bs.getD 29 0
    let stride := ((w * bits + 7) / 8 + 3) / 4 * 4
    if declaredSize = bs.length ∧ bs.length = offset + stride * h then
      some (w, h, bits)
    else none
  else none

/-! ### Top-level render entry points -/

/-- `Renderer.render_calendar`: draw all sections on a fresh 800 x 480 1-bit
canvas in the fixed order, then serialize to BMP. `now` is the wall clock
consumed by the countdown box. Returns the BMP bytes together with the full
operation log. -/
def Renderer.render_calendar (r : Renderer) (race_data : RaceData)
    (historical_data : Option HistoricalData) (now : Int) : List Nat × List DrawOp :=
  let headerOps := r.drawHeader race_data
  let trackOps := r.drawTrackSection race_data
  let sched := r.drawScheduleSection race_data now
  let statsOps := r.drawCircuitStats race_data sched.2
  let resultsOps := r.drawResultsSection race_data historical_data
  let ops := headerOps ++ trackOps ++ sched.1 ++ statsOps ++ resultsOps
  (toBmp ⟨DISPLAY_WIDTH, DISPLAY_HEIGHT, r.rasterize ops⟩, ops)

/-- `Renderer.render_error`: the translated error label and the first 60
characters of the message on a fresh canvas, serialized like the normal
path. -/
def Renderer.render_error (r : Renderer) (error_message : String) :
    List Nat × List DrawOp :=
  let error_text := tget r.translator "error" "Error"
  let padding := layout.padding
  let ops :=
    [DrawOp.text padding padding (error_text ++ ":") 0 FontKey.schedule_title,
     DrawOp.text padding (padding + 50) (pyTake error_message 60) 0 FontKey.schedule_row]
  (toBmp ⟨DISPLAY_WIDTH, DISPLAY_HEIGHT, r.rasterize ops⟩, ops)

/-! ### Observation helpers over operation logs -/

/-- Whether some drawn text operation carries exactly the string `s`. -/
def drawsText (ops : List DrawOp) (s : String) : Bool :=
  ops.any fun op =>
    match op with
    | DrawOp.text _ _ t _ _ => t == s
    | _ => false

/-- The bottom Y coordinates of all filled/outlined rectangles in a log. -/
def rectBottoms (ops : List DrawOp) : List Int :=
  ops.filterMap fun op =>
    match op with
    | DrawOp.rect _ _ _ y1 _ _ _ => some y1
    | _ => none

/-- The pixel heights of all rectangles in a log. -/
def rectHeights (ops : List DrawOp) : List Int :=
  ops.filterMap fun op =>
    match op with
    | DrawOp.rect _ y0 _ y1 _ _ _ => some (y1 - y0)
    | _ => none

/-- Number of per-entry result-row main texts in a log: texts drawn at the
column's own `x_start` in the results-row font (row time gaps sit at
`x_start + results_time_offset` and titles use the title font). -/
def rowMainTexts (ops : List DrawOp) (x : Int) : Nat :=
  ops.countP fun op =>
    match op with
    | DrawOp.text x' _ _ _ f => x' == x && f == FontKey.results_row
    | _ => false

/-! ### Theorems -/

lemma flatten_range_map_length {α : Type} (f : Nat → List α) (c : Nat)
    (h : ∀ i, (f i).length = c) :
    ∀ n, (((List.range n).map f).flatten).length = n * c := by
  intro n
  induction n with
  | zero => simp
  | succ m ih =>
    rw [List.range_succ, List.map_append, List.flatten_append, List.length_append, ih]
    simp [h, Nat.succ_mul]

lemma bmpData_length (img : PImage) :
    (bmpData img).length = bmpStride img.width * img.height := by
  rw [bmpData, flatten_range_map_length _ (bmpStride img.width), Nat.mul_comm]
  intro i
  simp

lemma toBmp_length (img : PImage) (h1 : img.width = 800) (h2 : img.height = 480) :
    (toBmp img).length = 48062 := by
  rw [toBmp, List.length_append, bmpData_length, h1, h2]
  rfl

lemma decodeBmp_toBmp (img : PImage) (h1 : img.width = 800) (h2 : img.height = 480) :
    decodeBmp (toBmp img) = some (800, 480, 1) := by
  have hlen : (toBmp img).length = 48062 := toBmp_length img h1 h2
  have hH : toBmp img = bmpHeader 800 480 ++ bmpData img := by rw [toBmp, h1, h2]
  have hgd : ∀ i, i < 62 → (toBmp img).getD i 0 = (bmpHeader 800 480).getD i 0 := by
    intro i hi
    rw [hH]
    exact List.getD_append _ _ _ _ (by simpa [bmpHeader, o16, o32] using hi)
  rw [decodeBmp]
  rw [hlen, hgd 0 (by norm_num), hgd 1 (by norm_num),
    hgd 2 (by norm_num), hgd 3 (by norm_num), hgd 4 (by norm_num), hgd 5 (by norm_num),
    hgd 10 (by norm_num), hgd 11 (by norm_num), hgd 12 (by norm_num), hgd 13 (by norm_num),
    hgd 18 (by norm_num), hgd 19 (by norm_num), hgd 20 (by norm_num), hgd 21 (by norm_num),
    hgd 22 (by norm_num), hgd 23 (by norm_num), hgd 24 (by norm_num), hgd 25 (by norm_num),
    hgd 28 (by norm_num), hgd 29 (by norm_num)]
  decide

/-- C1: for every race-data record and every optional historical record,
`render_calendar` returns a non-empty byte sequence that decodes as a valid
BMP bitmap of exactly 800 x 480 pixels at 1 bit per pixel. -/
theorem render_calendar_valid_bmp (r : Renderer) (race_data : RaceData)
    (historical_data : Option HistoricalData) (now : Int) :
    (r.render_calendar race_data historical_data now).1 ≠ [] ∧
      decodeBmp (r.render_calendar race_data historical_data now).1
        = some (DISPLAY_WIDTH, DISPLAY_HEIGHT, 1) := by
  refine ⟨fun h => ?_, decodeBmp_toBmp _ rfl rfl⟩
  have h48 := toBmp_length ⟨DISPLAY_WIDTH, DISPLAY_HEIGHT,
    r.rasterize (r.render_calendar race_data historical_data now).2⟩ rfl rfl
  rw [show toBmp ⟨DISPLAY_WIDTH, DISPLAY_HEIGHT,
      r.rasterize (r.render_calendar race_data historical_data now).2⟩
      = (r.render_calendar race_data historical_data now).1 from rfl, h] at h48
  simp at h48

/-- C8: for every error message (empty or arbitrarily long),
`render_error` returns a decodable 800 x 480 1-bit bitmap and renders exactly
the translated error label and the first 60 characters of the message. -/
theorem render_error_spec (r : Renderer) (error_message : String) :
    decodeBmp (r.render_error error_message).1 = some (DISPLAY_WIDTH, DISPLAY_HEIGHT, 1) ∧
      (r.render_error error_message).2 =
        [DrawOp.text 15 15 (tget r.translator "error" "Error" ++ ":") 0 FontKey.schedule_title,
         DrawOp.text 15 65 (pyTake error_message 60) 0 FontKey.schedule_row] := by
  exact ⟨decodeBmp_toBmp _ rfl rfl, rfl⟩

lemma truncLoop_eq (w : String → Int) (maxW : Int) (cand : Nat → String) :
    ∀ n, truncLoop w maxW cand n =
      (((List.range' 3 (n - 2)).reverse).map cand).find? (fun t => decide (w t ≤ maxW)) := by
  intro n
  induction n using Nat.strong_induction_on with
  | _ n ih =>
    match n with
    | 0 => rw [truncLoop]; simp
    | 1 => rw [truncLoop]; simp
    | 2 => rw [truncLoop]; simp
    | m + 3 =>
      rw [truncLoop]
      have hm : m + 3 - 2 = (m + 3 - 3) + 1 := by omega
      have hs : 3 + 1 * (m + 3 - 3) = m + 3 := by omega
      rw [hm, List.range'_concat, hs, List.reverse_append]
      by_cases hw : w (cand (m + 3)) ≤ maxW
      · simp [hw]
      · simp only [List.reverse_cons, List.reverse_nil, List.nil_append,
          List.singleton_append, List.map_cons]
        rw [List.find?_cons_of_neg _ (by simpa using hw), if_neg hw]
        have := ih (m + 2) (by omega)
        simpa using this

/-- C2: `_fit_text` follows exactly the staged policy: return the full
composite if it fits; otherwise shorten the team name from full length down
to 3 characters with a two-character marker, returning the first fitting
form; otherwise fix the team at 3 characters plus marker and shorten the
driver name down to 3 characters with a one-character marker; otherwise
return the fixed fallback of 5 driver and 3 team characters. The function is
structurally total, so it always terminates and never raises. -/
theorem fit_text_staged_policy (w : String → Int) (maxW pos : Int) (driver team : String) :
    fitText w maxW pos driver team = fitTextSpec w maxW pos driver team := by
  rw [fitText, fitTextSpec]
  simp only [truncLoop_eq]

lemma scheduleRowsLoop_spec (r : Renderer) :
    ∀ (sched : List ScheduleEvent) (k : Nat), k ≤ 5 →
      r.scheduleRowsLoop sched (140 + 28 * (k : Int)) =
        (((sched.take (6 - k)).enumFrom k).flatMap
          (fun p => r.drawScheduleRow (140 + 28 * (p.1 : Int)) p.2),
         140 + 28 * ((k + min sched.length (6 - k) : Nat) : Int)) := by
  intro sched
  induction sched with
  | nil => intro k hk; simp [Renderer.scheduleRowsLoop]
  | cons e rest ih =>
    intro k hk
    rw [Renderer.scheduleRowsLoop]
    simp only [layout]
    by_cases hk5 : k = 5
    · subst hk5
      rw [if_pos (by norm_num)]
      have h61 : 6 - 5 = 1 := by norm_num
      rw [h61]
      simp only [List.take_succ_cons, List.take_zero, List.enumFrom_cons,
        List.enumFrom_nil, List.flatMap_cons, List.flatMap_nil, List.append_nil,
        Prod.mk.injEq]
      refine ⟨trivial, ?_⟩
      rw [List.length_cons, show min (rest.length + 1) 1 = 1 from by omega]
      norm_num
    · have hklt : k < 5 := by omega
      rw [if_neg (by push_cast; omega)]
      have harg : (140 : Int) + 28 * (k : Int) + 28 = 140 + 28 * ((k + 1 : Nat) : Int) := by
        push_cast; ring
      rw [harg, ih (k + 1) (by omega)]
      have h6k : 6 - k = (6 - (k + 1)) + 1 := by omega
      rw [h6k, List.take_succ_cons, List.enumFrom_cons, List.flatMap_cons]
      simp only [Prod.mk.injEq]
      refine ⟨trivial, ?_⟩
      rw [List.length_cons]
      have hmin : k + 1 + min rest.length (6 - (k + 1)) =
          k + min (rest.length + 1) (6 - (k + 1) + 1) := by omega
      rw [← hmin]

/-- C5: the schedule renderer draws one row per entry in input order,
starting at the fixed start Y (140) with the fixed row height (28), and stops
as soon as the next row's Y would exceed the `results_y_start - 80` guard;
with these constants that caps the drawn rows at 6, surplus entries are
silently dropped (the loop is total, so nothing is raised), and the final
cursor sits one row height below the last drawn row. -/
theorem schedule_rows_truncation (r : Renderer) (schedule : List ScheduleEvent) :
    (r.scheduleRowsLoop schedule layout.schedule_start_y).1 =
      ((schedule.take 6).enum).flatMap
        (fun p => r.drawScheduleRow
          (layout.schedule_start_y + layout.schedule_row_height * (p.1 : Int)) p.2) ∧
      (r.scheduleRowsLoop schedule layout.schedule_start_y).2 =
        layout.schedule_start_y +
          layout.schedule_row_height * ((min schedule.length 6 : Nat) : Int) := by
  have h := scheduleRowsLoop_spec r schedule 0 (by norm_num)
  simp only [Nat.cast_zero, mul_zero, add_zero, Nat.sub_zero, Nat.zero_add] at h
  constructor
  · rw [show layout.schedule_start_y = (140 : Int) from rfl, h]
    rfl
  · rw [show layout.schedule_start_y = (140 : Int) from rfl, h]
    simp [layout]

lemma rectBottoms_append (a b : List DrawOp) :
    rectBottoms (a ++ b) = rectBottoms a ++ rectBottoms b :=
  List.filterMap_append a b _

lemma rectBottoms_scheduleRows (r : Renderer) :
    ∀ (sched : List ScheduleEvent) (y : Int),
      rectBottoms (r.scheduleRowsLoop sched y).1 = [] := by
  intro sched
  induction sched with
  | nil => intro y; simp [Renderer.scheduleRowsLoop, rectBottoms]
  | cons e rest ih =>
    intro y
    rw [Renderer.scheduleRowsLoop]
    have hrow : rectBottoms (r.drawScheduleRow y e) = [] := by
      simp [Renderer.drawScheduleRow, rectBottoms]
    by_cases hg : y + layout.schedule_row_height > layout.results_y_start - 80
    · rw [if_pos hg]; exact hrow
    · rw [if_neg hg]
      simp only [rectBottoms_append, hrow, List.nil_append]
      exact ih _

lemma rectBottoms_cons_text (x y : Int) (s : String) (f : Nat) (k : FontKey)
    (ops : List DrawOp) :
    rectBottoms (DrawOp.text x y s f k :: ops) = rectBottoms ops := by
  simp [rectBottoms]

lemma drawCountdownBox_shape (r : Renderer) (rd : RaceData) (now sb : Int) :
    r.drawCountdownBox rd now sb = ([], sb) ∨
      rectBottoms (r.drawCountdownBox rd now sb).1 = [(r.drawCountdownBox rd now sb).2] := by
  rw [Renderer.drawCountdownBox]
  cases findRaceDt rd.schedule with
  | none => left; rfl
  | some dt =>
    by_cases hd : dt - now ≤ 0
    · left; simp [hd]
    · right; simp [hd, rectBottoms]

/-- C4 (amended): the schedule section renderer returns the bottom Y of the
countdown box it draws below the rows; when the box is omitted, this is the
Y just below the last drawn schedule row plus the constant 5-pixel gap. -/
theorem schedule_section_return_value (r : Renderer) (race_data : RaceData) (now : Int) :
    rectBottoms (r.drawScheduleSection race_data now).1 =
        [(r.drawScheduleSection race_data now).2] ∨
      (rectBottoms (r.drawScheduleSection race_data now).1 = [] ∧
        (r.drawScheduleSection race_data now).2 =
          (r.scheduleRowsLoop race_data.schedule layout.schedule_start_y).2 + 5) := by
  rcases drawCountdownBox_shape r race_data now
      ((r.scheduleRowsLoop race_data.schedule layout.schedule_start_y).2 + 5) with h | h
  · right
    constructor
    · simp only [Renderer.drawScheduleSection, h, rectBottoms_cons_text,
        rectBottoms_append, rectBottoms_scheduleRows, List.append_nil]
    · simp only [Renderer.drawScheduleSection, h]
  · left
    simp only [Renderer.drawScheduleSection, rectBottoms_cons_text,
      rectBottoms_append, rectBottoms_scheduleRows, List.nil_append]
    exact h

/-! ### Concrete evaluation fixtures (a simple monospaced metrics oracle, an
all-defaults translator, and small inputs) used to instantiate the theorems
on closed terms. -/

/-- A simple metrics oracle: every glyph 7 px wide, ascent 0, descent 16. -/
def sampleMetrics : Metrics := fun _ s => ⟨0, 0, (s.length : Int) * 7, 16⟩

/-- A translator with no keys: every lookup falls back to its default. -/
def sampleTranslator : Translator := fun _ => none

/-- A Czech-flavoured translator producing diacritic countdown labels. -/
def sampleTranslatorCz : Translator := fun k =>
  if k = "countdown_in" then some "ZA"
  else if k = "countdown_days" then some "dní"
  else if k = "countdown_hours" then some "hodin"
  else none

/-- A renderer over the sample oracles with no loadable assets. -/
def sampleRenderer : Renderer where
  translator := sampleTranslator
  metrics := sampleMetrics
  strfDate := fun _ => "01.01."
  strfDayAbbrev := fun _ => "Sun"
  strfTime := fun _ => "14:00"
  logoScaled := none
  loadTrackImage := fun _ => false
  flagLoad := fun _ => none
  circuitsData := fun _ => none
  rasterize := fun _ _ _ => true

/-- The sample renderer with the Czech translator. -/
def sampleRendererCz : Renderer :=
  { sampleRenderer with translator := sampleTranslatorCz }

/-- A schedule holding one future `Race` session at epoch second 1000000. -/
def sampleRace : RaceData :=
  ⟨none, none, [⟨some "Race", some 1000000, none⟩], ⟨none, none, none, none⟩⟩

/-- C4 (counterexample): with one schedule entry (a future race at epoch
second 1000000, clock at 0) the section draws its single row at Y 140
(occupying up to 168), yet returns 264 — the countdown box bottom — which is
not the Y just below the last drawn row (168), nor that plus the 5-pixel gap
(173), nor the row's own Y (140). -/
theorem schedule_section_return_cex :
    (sampleRenderer.drawScheduleSection sampleRace 0).2 = 264 ∧
      (sampleRenderer.scheduleRowsLoop sampleRace.schedule layout.schedule_start_y).2 = 168 ∧
      ¬((264 : Int) = 168 ∨ (264 : Int) = 173 ∨ (264 : Int) = 140) := by
  decide

/-- C6: the countdown box is omitted — no operations, the incoming
schedule-bottom Y returned unchanged — when no schedule entry is named
`Race` case-insensitively, or when the remaining time from now until that
entry's timestamp is zero or negative; otherwise it is drawn, its text
showing the whole days and whole remaining hours until race time. -/
theorem countdown_box_presence (r : Renderer) (race_data : RaceData) (now sb : Int) :
    (findRaceEvent race_data.schedule = none →
      r.drawCountdownBox race_data now sb = ([], sb)) ∧
    (∀ e ∈ (findRaceEvent race_data.schedule), ∀ dt, e.datetime = some dt →
      dt - now ≤ 0 → r.drawCountdownBox race_data now sb = ([], sb)) ∧
    (∀ e ∈ (findRaceEvent race_data.schedule), ∀ dt, e.datetime = some dt →
      0 < dt - now →
        (r.drawCountdownBox race_data now sb).1 ≠ [] ∧
        drawsText (r.drawCountdownBox race_data now sb).1
          (countdownText r.translator (dt - now)) = true) := by
  refine ⟨fun hnone => ?_, fun e he dt hdt hle => ?_, fun e he dt hdt hpos => ?_⟩
  · rw [Renderer.drawCountdownBox, findRaceDt, hnone]
    rfl
  · rw [Option.mem_def] at he
    rw [Renderer.drawCountdownBox, findRaceDt, he, Option.bind, hdt]
    simp [hle]
  · rw [Option.mem_def] at he
    rw [Renderer.drawCountdownBox, findRaceDt, he, Option.bind, hdt]
    have hne : ¬dt - now ≤ 0 := by omega
    simp only [if_neg hne]
    refine ⟨by simp, ?_⟩
    simp [drawsText]

/-- C6 (witness): on the sample schedule — one `Race` entry at epoch second
1000000, clock at 0 — the hypotheses hold and the drawn box carries the
countdown text. -/
theorem countdown_box_presence_witness :
    (⟨some "Race", some 1000000, none⟩ : ScheduleEvent) ∈
        findRaceEvent sampleRace.schedule ∧
      ((⟨some "Race", some 1000000, none⟩ : ScheduleEvent).datetime = some 1000000 ∧
        (0 : Int) < 1000000 - 0) ∧
      ((sampleRenderer.drawCountdownBox sampleRace 0 173).1 ≠ [] ∧
        drawsText (sampleRenderer.drawCountdownBox sampleRace 0 173).1
          (countdownText sampleRenderer.translator (1000000 - 0)) = true) :=
  ⟨by decide, ⟨rfl, by decide⟩,
    (countdown_box_presence sampleRenderer sampleRace 0 173).2.2
      ⟨some "Race", some 1000000, none⟩ (by decide) 1000000 rfl (by decide)⟩

/-- C7: for a fixed metrics oracle, the countdown box's pixel height is the
same under any two translation tables (hence under locales with different
diacritic sets producing different countdown strings): the height derives
only from the fixed reference glyph string `TEXT_BASELINE_REF` plus constant
padding, never from the rendered text. -/
theorem countdown_box_height_locale_invariant (r1 r2 : Renderer) (race_data : RaceData)
    (now sb : Int) (hm : r1.metrics = r2.metrics) :
    rectHeights (r1.drawCountdownBox race_data now sb).1 =
      rectHeights (r2.drawCountdownBox race_data now sb).1 := by
  rw [Renderer.drawCountdownBox, Renderer.drawCountdownBox, hm]
  cases findRaceDt race_data.schedule with
  | none => rfl
  | some dt =>
    by_cases hd : dt - now ≤ 0
    · simp [hd]
    · simp only [if_neg hd]
      simp [rectHeights]

/-- C7 (witness): the English sample renderer and its Czech variant share
metrics, produce different countdown strings, and draw equal-height boxes. -/
theorem countdown_box_height_locale_invariant_witness :
    sampleRenderer.metrics = sampleRendererCz.metrics ∧
      countdownText sampleRenderer.translator 1000000 ≠
        countdownText sampleRendererCz.translator 1000000 ∧
      rectHeights (sampleRenderer.drawCountdownBox sampleRace 0 173).1 =
        rectHeights (sampleRendererCz.drawCountdownBox sampleRace 0 173).1 :=
  ⟨rfl, by decide,
    countdown_box_height_locale_invariant sampleRenderer sampleRendererCz sampleRace 0 173 rfl⟩

/-- Sample driver record for concrete instantiations. -/
def sampleDriver : DriverInfo := ⟨"VER", "Max", "Verstappen"⟩

/-- Sample qualifying podium entry. -/
def sampleQualRow : QualifyingResultEntry := ⟨1, sampleDriver, ⟨"Red Bull"⟩, some "1:29.708"⟩

/-- Sample race podium entry. -/
def sampleRaceRow : RaceResultEntry := ⟨1, sampleDriver, ⟨"Red Bull"⟩, some "+11.987"⟩

/-- Historical data flagged as a new track but holding populated result
lists. -/
def sampleHistNew : HistoricalData := ⟨some 2024, true, [sampleRaceRow], [sampleQualRow]⟩

/-- Historical data with results and `is_new_track = False`. -/
def sampleHist : HistoricalData := ⟨some 2024, false, [sampleRaceRow], [sampleQualRow]⟩

/-- C3: when no historical data is supplied or its new-track flag is set, the
results section draws exactly the separator line and one centered translated
`NEW TRACK` message — no year header, no flag, no column titles and no result
rows, whatever the result lists contain. -/
theorem results_section_new_track (r : Renderer) (race_data : RaceData)
    (historical_data : Option HistoricalData)
    (h : historical_data = none ∨
      ∃ hd, historical_data = some hd ∧ hd.is_new_track = true) :
    r.drawResultsSection race_data historical_data =
      [DrawOp.line 0 layout.results_y_start (DISPLAY_WIDTH : Int) layout.results_y_start 0 2,
       DrawOp.text
         (((DISPLAY_WIDTH : Int) -
           ((r.metrics FontKey.schedule_title (tget r.translator "new_track" "NEW TRACK")).right -
            (r.metrics FontKey.schedule_title (tget r.translator "new_track" "NEW TRACK")).left)).fdiv 2)
         (layout.results_y_start + 30)
         (tget r.translator "new_track" "NEW TRACK") 0 FontKey.schedule_title] := by
  rcases h with h | ⟨hd, h, hflag⟩
  · subst h
    rfl
  · subst h
    simp only [Renderer.drawResultsSection, hflag, if_true]
    rfl

/-- C3 (witness): with populated qualifying and race lists but the new-track
flag set, the section log is exactly the separator and the message. -/
theorem results_section_new_track_witness :
    (some sampleHistNew = none ∨
        ∃ hd, some sampleHistNew = some hd ∧ hd.is_new_track = true) ∧
      sampleRenderer.drawResultsSection sampleRace (some sampleHistNew) =
        [DrawOp.line 0 layout.results_y_start (DISPLAY_WIDTH : Int) layout.results_y_start 0 2,
         DrawOp.text
           (((DISPLAY_WIDTH : Int) -
             ((sampleRenderer.metrics FontKey.schedule_title
                (tget sampleRenderer.translator "new_track" "NEW TRACK")).right -
              (sampleRenderer.metrics FontKey.schedule_title
                (tget sampleRenderer.translator "new_track" "NEW TRACK")).left)).fdiv 2)
           (layout.results_y_start + 30)
           (tget sampleRenderer.translator "new_track" "NEW TRACK") 0 FontKey.schedule_title] :=
  ⟨Or.inr ⟨sampleHistNew, rfl, rfl⟩,
    results_section_new_track sampleRenderer sampleRace (some sampleHistNew)
      (Or.inr ⟨sampleHistNew, rfl, rfl⟩)⟩

lemma drawsText_append (a b : List DrawOp) (s : String) :
    drawsText (a ++ b) s = (drawsText a s || drawsText b s) :=
  List.any_append

lemma drawsText_column_title (r : Renderer) (x v : Int) (t : String)
    (results : List ResultEntryView) (q : Bool) :
    drawsText (r.drawResultsColumn x v t results q) t = true := by
  simp [Renderer.drawResultsColumn, drawsText]

lemma drawsText_cons_line (a b c d : Int) (e f : Nat) (ops : List DrawOp) (s : String) :
    drawsText (DrawOp.line a b c d e f :: ops) s = drawsText ops s := by
  simp [drawsText]

/-- C9: a country name absent from the country table maps to the lowercase of
its first two characters without any failure, and when no flag asset exists
for that code, only the flag paste/border is skipped — the year header is
still drawn and both result columns still render. -/
theorem flag_fallback_unmapped (r : Renderer) (race_data : RaceData) (hd : HistoricalData)
    (country : String)
    (h1 : COUNTRY_MAP.lookup country = none)
    (h2 : r.flagLoad (pyLower (pyTake country 2)) = none)
    (h3 : race_data.circuit.country = some country)
    (h4 : hd.is_new_track = false) :
    isoCode country = pyLower (pyTake country 2) ∧
      (∀ s, ∃ x y, (r.drawResultsHeader layout.results_y_start s country).2 =
        [DrawOp.text x y s 0 FontKey.results_year]) ∧
      drawsText (r.drawResultsSection race_data (some hd))
        (tget r.translator "qualifying" "QUALIFYING") = true ∧
      drawsText (r.drawResultsSection race_data (some hd))
        (tget r.translator "race" "RACE") = true := by
  have hUAE : country ≠ "UAE" := fun heq => by rw [heq] at h1; exact absurd h1 (by decide)
  have hUK : country ≠ "UK" := fun heq => by rw [heq] at h1; exact absurd h1 (by decide)
  have hUSA : country ≠ "USA" := fun heq => by rw [heq] at h1; exact absurd h1 (by decide)
  have hiso : isoCode country = pyLower (pyTake country 2) := by
    rw [isoCode, h1]
    simp only [Option.getD_none]
    have h0 : pyLower "" = "" := rfl
    rw [h0, if_pos rfl, if_neg hUAE, if_neg hUK, if_neg hUSA]
  have hflag : (if isoCode country = "" then none else r.flagLoad (isoCode country))
      = (none : Option (Int × Int)) := by
    rw [hiso]
    by_cases hempty : pyLower (pyTake country 2) = ""
    · rw [if_pos hempty]
    · rw [if_neg hempty, h2]
  have hhead : ∀ s, ∃ x y, (r.drawResultsHeader layout.results_y_start s country).2 =
      [DrawOp.text x y s 0 FontKey.results_year] := by
    intro s
    simp only [Renderer.drawResultsHeader, hflag]
    exact ⟨_, _, rfl⟩
  refine ⟨hiso, hhead, ?_, ?_⟩
  · simp only [Renderer.drawResultsSection, h4, Bool.false_eq_true, if_false, h3,
      Option.getD_some]
    simp only [drawsText_cons_line, drawsText_append, drawsText_column_title]
    simp
  · simp only [Renderer.drawResultsSection, h4, Bool.false_eq_true, if_false, h3,
      Option.getD_some]
    simp only [drawsText_cons_line, drawsText_append, drawsText_column_title]
    simp

/-- C9 (witness): the unmapped name `Atlantis` yields code `at`; with no
loadable flag the header is the bare year text and both columns render. -/
theorem flag_fallback_unmapped_witness :
    (COUNTRY_MAP.lookup "Atlantis" = none ∧
        sampleRenderer.flagLoad (pyLower (pyTake "Atlantis" 2)) = none) ∧
      isoCode "Atlantis" = pyLower (pyTake "Atlantis" 2) ∧
      (∃ x y, (sampleRenderer.drawResultsHeader layout.results_y_start "2024" "Atlantis").2 =
        [DrawOp.text x y "2024" 0 FontKey.results_year]) ∧
      drawsText
        (sampleRenderer.drawResultsSection
          ⟨none, none, [], ⟨none, none, none, some "Atlantis"⟩⟩ (some sampleHist))
        (tget sampleRenderer.translator "qualifying" "QUALIFYING") = true :=
  ⟨⟨by decide, rfl⟩,
    (flag_fallback_unmapped sampleRenderer
      ⟨none, none, [], ⟨none, none, none, some "Atlantis"⟩⟩ sampleHist "Atlantis"
      (by decide) rfl rfl rfl).1,
    (flag_fallback_unmapped sampleRenderer
      ⟨none, none, [], ⟨none, none, none, some "Atlantis"⟩⟩ sampleHist "Atlantis"
      (by decide) rfl rfl rfl).2.1 "2024",
    (flag_fallback_unmapped sampleRenderer
      ⟨none, none, [], ⟨none, none, none, some "Atlantis"⟩⟩ sampleHist "Atlantis"
      (by decide) rfl rfl rfl).2.2.1⟩

lemma rowMainTexts_append (a b : List DrawOp) (x : Int) :
    rowMainTexts (a ++ b) x = rowMainTexts a x + rowMainTexts b x :=
  List.countP_append _ _ _

lemma rowMainTexts_row (r : Renderer) (x tx y : Int) (q : Bool) (e : ResultEntryView)
    (htx : tx ≠ x) :
    rowMainTexts (r.drawResultRow x tx y q e) x = 1 := by
  simp only [Renderer.drawResultRow]
  by_cases ht : ((if q then e.q3_time else e.time).getD "") = ""
  · simp [rowMainTexts, List.countP_cons, ht]
  · simp [rowMainTexts, List.countP_cons, ht, htx, beq_iff_eq]

lemma rowMainTexts_rowsAux (r : Renderer) (x tx y0 : Int) (q : Bool) (htx : tx ≠ x) :
    ∀ (l : List ResultEntryView) (i : Nat),
      rowMainTexts (r.resultRowsAux x tx y0 q l i) x = l.length := by
  intro l
  induction l with
  | nil => intro i; simp [Renderer.resultRowsAux, rowMainTexts]
  | cons e rest ih =>
    intro i
    rw [Renderer.resultRowsAux, rowMainTexts_append,
      rowMainTexts_row r x tx _ q e htx, ih (i + 1), List.length_cons]
    omega

lemma rowMainTexts_cons_title (x0 y : Int) (s : String) (fl : Nat) (ops : List DrawOp)
    (x : Int) :
    rowMainTexts (DrawOp.text x0 y s fl FontKey.results_title :: ops) x =
      rowMainTexts ops x := by
  simp [rowMainTexts, List.countP_cons]

/-- C10 (implicit): a results column draws exactly `min 3 (length results)`
result rows — entries beyond the first three are ignored and cannot affect
the output, even if the caller passes more than the data model's three. -/
theorem results_column_top_three (r : Renderer) (x_start visual_top : Int) (title : String)
    (results : List ResultEntryView) (is_qualifying : Bool) :
    r.drawResultsColumn x_start visual_top title results is_qualifying =
        r.drawResultsColumn x_start visual_top title (results.take 3) is_qualifying ∧
      rowMainTexts (r.drawResultsColumn x_start visual_top title results is_qualifying)
          x_start = min 3 results.length := by
  have htx : x_start + layout.results_time_offset ≠ x_start := by
    simp only [layout]
    omega
  constructor
  · simp [Renderer.drawResultsColumn, List.take_take]
  · simp only [Renderer.drawResultsColumn]
    rw [rowMainTexts_cons_title, rowMainTexts_rowsAux r _ _ _ _ htx, List.length_take]

end InkyCloud
